import Mathlib

/-!
Shallow embedding of the result-analysis pipeline of the
cloud-final-23bigdata-No.3-A4 repository (`src/analyze_results.py` and
`src/utils.py`).

Numeric values are modelled as exact rationals (`ℚ`): Python `float`
arithmetic on the small decimal quantities handled here is modelled by
exact rational arithmetic, and Python's `float(...)` literal parser is
modelled over plain decimal literals (optional sign, digits, optional
fractional part); exponent notation, `inf`/`nan` and underscore
separators are outside the model.  The filesystem is modelled as
`Option String` (`none` = missing or unreadable file).

Because the standard `Rat` arithmetic operations are `@[irreducible]`
in this toolchain, the embedding routes rational arithmetic through the
kernel-computable wrappers `qadd`, `qsub`, `qmul`, `qdiv`, `qabs`
defined below; the bridge lemmas `qadd_eq`, `qsub_eq`, `qmul_eq`,
`qdiv_eq`, `qabs_eq` prove that each wrapper is exactly the standard
`ℚ` operation, so theorems can be stated with ordinary `+ - * /`.
-/

/-- Addition on `ℚ` through `Rat.divInt` (kernel-computable); equal to
`a + b` by `qadd_eq`. -/
def qadd (a b : ℚ) : ℚ := Rat.divInt (a.num * b.den + b.num * a.den) (a.den * b.den)

/-- Subtraction on `ℚ` through `Rat.divInt`; equal to `a - b` by
`qsub_eq`. -/
def qsub (a b : ℚ) : ℚ := Rat.divInt (a.num * b.den - b.num * a.den) (a.den * b.den)

/-- Multiplication on `ℚ` through `Rat.divInt`; equal to `a * b` by
`qmul_eq`. -/
def qmul (a b : ℚ) : ℚ := Rat.divInt (a.num * b.num) (a.den * b.den)

/-- Division on `ℚ` through `Rat.divInt`; equal to `a / b` by
`qdiv_eq` (division by zero yields 0, as for `ℚ` division). -/
def qdiv (a b : ℚ) : ℚ := Rat.divInt (a.num * b.den) (a.den * b.num)

/-- Absolute value on `ℚ` by a sign test (Python `abs`); equal to
`|a|` by `qabs_eq`. -/
def qabs (a : ℚ) : ℚ := if a < 0 then -a else a

/-- `10 ^ n` as a rational, computed in `ℕ`. -/
def qpow10 (n : Nat) : ℚ := ((10 ^ n : Nat) : ℚ)

theorem qadd_eq (a b : ℚ) : qadd a b = a + b := by
  rw [qadd]
  conv_rhs => rw [← Rat.num_divInt_den a, ← Rat.num_divInt_den b]
  rw [Rat.divInt_add_divInt _ _ (by exact_mod_cast a.den_nz) (by exact_mod_cast b.den_nz)]

theorem qsub_eq (a b : ℚ) : qsub a b = a - b := by
  rw [qsub]
  conv_rhs => rw [← Rat.num_divInt_den a, ← Rat.num_divInt_den b]
  rw [Rat.divInt_sub_divInt _ _ (by exact_mod_cast a.den_nz) (by exact_mod_cast b.den_nz)]

theorem qmul_eq (a b : ℚ) : qmul a b = a * b := by
  rw [qmul]
  conv_rhs => rw [← Rat.num_divInt_den a, ← Rat.num_divInt_den b]
  rw [Rat.divInt_mul_divInt']

theorem qdiv_eq (a b : ℚ) : qdiv a b = a / b := (Rat.div_def' a b).symm

theorem qabs_eq (a : ℚ) : qabs a = |a| := by
  rw [qabs]
  by_cases h : a < 0
  · rw [if_pos h, abs_of_neg h]
  · rw [if_neg h, abs_of_nonneg (le_of_not_lt h)]

/-- ASCII whitespace recognised by Python's `str.strip()` (the subset
relevant to the measurement files handled by the scripts). -/
def isSpaceChar (c : Char) : Bool :=
  c == ' ' || c == '\t' || c == '\n' || c == '\r' || c == '\x0b' || c == '\x0c'

/-- Python `str.strip()`: drop whitespace from both ends. -/
def trimChars (s : List Char) : List Char :=
  ((s.dropWhile isSpaceChar).reverse.dropWhile isSpaceChar).reverse

/-- Worker for `replaceAll`, structurally recursive on a fuel counter so
that it reduces inside the kernel; `fuel ≥ s.length` makes the fuel
branch unreachable. -/
def replaceAllGo (fuel : Nat) (pat : List Char) (s : List Char) : List Char :=
  match fuel, s with
  | 0, s => s
  | _ + 1, [] => []
  | fuel + 1, c :: rest =>
    if pat.isPrefixOf (c :: rest) ∧ pat ≠ [] then
      replaceAllGo fuel pat (rest.drop (pat.length - 1))
    else
      c :: replaceAllGo fuel pat rest

/-- Python `str.replace(pat, "")` for a non-empty `pat`: delete every
non-overlapping occurrence of `pat`, scanning left to right and resuming
after each deleted occurrence. -/
def replaceAll (pat : List Char) (s : List Char) : List Char :=
  replaceAllGo s.length pat s

/-- Value of a digit string, most significant digit first. -/
def digitsToNat (ds : List Char) : Nat :=
  ds.foldl (fun a c => 10 * a + (c.toNat - 48)) 0

/-- Unsigned decimal literal: `digits`, `digits.`, `digits.digits` or
`.digits`; anything else is rejected. -/
def parseUnsigned (s : List Char) : Option ℚ :=
  let ip := s.takeWhile Char.isDigit
  let rest := s.dropWhile Char.isDigit
  match rest with
  | [] => if ip.isEmpty then none else some ((digitsToNat ip : ℚ))
  | '.' :: fp =>
    if fp.all Char.isDigit && !(ip.isEmpty && fp.isEmpty) then
      some (qadd ((digitsToNat ip : ℚ)) (qdiv ((digitsToNat fp : ℚ)) (qpow10 fp.length)))
    else none
  | _ => none

/-- Model of Python `float(...)` on plain decimal literals (see the
module comment); `float` itself also strips surrounding whitespace. -/
def parseDecimal (s : List Char) : Option ℚ :=
  match trimChars s with
  | '+' :: r => parseUnsigned r
  | '-' :: r => (parseUnsigned r).map (fun x => -x)
  | r => parseUnsigned r

/-- The four unit tokens stripped by `parse_number`
(`analyze_results.py` lines 34-40), in the order of the chained
`replace` calls. -/
def pnUnits : List (List Char) := [['M','B'], ['G','B'], ['K','B'], ['B']]

/-- The chained
`.replace('MB','').replace('GB','').replace('KB','').replace('B','')`
of `parse_number`. -/
def pnStrip (s : List Char) : List Char :=
  replaceAll ['B'] (replaceAll ['K','B'] (replaceAll ['G','B'] (replaceAll ['M','B'] s)))

/-- `parse_number` from `analyze_results.py`: strip surrounding
whitespace, remove the byte-unit tokens, parse as a float, and fall back
to `default` on any failure. -/
def parse_number (value : String) (default : ℚ) : ℚ :=
  (parseDecimal (pnStrip (trimChars value.data))).getD default

/-- The unit tokens stripped by `safe_float_parse` (`utils.py` line
128), in loop order. -/
def sfUnits : List (List Char) :=
  [['M','B'], ['G','B'], ['K','B'], ['B'], ['%'], ['m','s'], ['s']]

/-- The unit-stripping loop of `safe_float_parse`. -/
def sfStrip (s : List Char) : List Char :=
  sfUnits.foldl (fun acc u => replaceAll u acc) s

/-- `safe_float_parse` from `utils.py`: strip surrounding whitespace,
remove the recognised unit tokens, parse as a float, and fall back to
`default` on any failure. -/
def safe_float_parse (value : String) (default : ℚ) : ℚ :=
  (parseDecimal (sfStrip (trimChars value.data))).getD default

/-- `read_file_content` from `analyze_results.py`: the filesystem is
modelled as `Option String`, with `none` standing for a missing or
unreadable file.  A present file's content is stripped and, if the
result is empty, replaced by `default`. -/
def read_file_content (file : Option String) (default : String) : String :=
  match file with
  | none => default
  | some content =>
    let c := String.mk (trimChars content.data)
    if c = "" then default else c

/-- `calculate_improvement` from `analyze_results.py` lines 147-159:
degenerate guard returning 0 when either side is 0, otherwise the
polarity-dependent percentage formula
`((docker - vm) / vm) * 100` resp. `((vm - docker) / vm) * 100`. -/
def calculate_improvement (vm_value docker_value : ℚ) (higher_is_better : Bool) : ℚ :=
  if vm_value = 0 ∨ docker_value = 0 then 0
  else if higher_is_better then qmul (qdiv (qsub docker_value vm_value) vm_value) 100
  else qmul (qdiv (qsub vm_value docker_value) vm_value) 100

/-- One step of the fallback cascade `if x == 0: x = next_candidate`
used by `load_performance_data`. -/
def resolveStep (acc next : ℚ) : ℚ := if acc = 0 then next else acc

/-- The fallback cascade generalised to an ordered candidate list:
start from 0 and apply `resolveStep` for each candidate in priority
order. -/
def resolveChain (candidates : List ℚ) : ℚ := candidates.foldl resolveStep 0

/-- The memory resolution cascade of `load_performance_data`
(`analyze_results.py` lines 66-70): `used_memory_mb`, then
`vm_internal_memory_mb`, then `configured_memory_mb`, given the already
normalized candidate values. -/
def vm_used_memory (used internal configured : ℚ) : ℚ :=
  resolveStep (resolveStep used internal) configured

/-- Spec-side description of the Metric Resolver (for comparison with
the source-derived `resolveChain`): the first candidate whose normalized
value is non-zero, or 0 when there is none. -/
def specFirstNonZero (candidates : List ℚ) : ℚ :=
  (candidates.find? (fun x => x != 0)).getD 0

/-- The disk resolution of `load_performance_data` (`analyze_results.py`
lines 73-82), given the contents of `disk_actual_bytes.txt` and
`disk_size.txt`: if the actual-bytes value normalizes to 0, dispatch on
a `G` or `M` letter in the upper-cased size string and convert to
bytes. -/
def vm_disk_bytes (actual sizeStr : String) : ℚ :=
  let d := parse_number actual 0
  if d = 0 then
    let up := sizeStr.data.map Char.toUpper
    if up.contains 'G' then qmul (parse_number sizeStr 0) (((1024 * 1024 * 1024 : Nat) : ℚ))
    else if up.contains 'M' then qmul (parse_number sizeStr 0) (((1024 * 1024 : Nat) : ℚ))
    else parse_number sizeStr 0
  else d

/-- Round to the nearest integer, ties to even (CPython's fixed-point
formatting behaviour, idealised to exact rationals). -/
def roundHalfEven (q : ℚ) : ℤ :=
  let fl := q.floor
  let fr := qsub q (Rat.divInt fl 1)
  if Rat.divInt 1 2 < fr then fl + 1
  else if fr < Rat.divInt 1 2 then fl
  else if fl % 2 = 0 then fl else fl + 1

/-- Pad a digit string with leading zeros up to `len` characters. -/
def padLeftZeros (len : Nat) (s : String) : String :=
  if s.length < len then String.mk (List.replicate (len - s.length) '0') ++ s else s

/-- Fixed-point rendering of a non-negative rational with `prec` digits
after the decimal point. -/
def fmtFixedNonneg (prec : Nat) (q : ℚ) : String :=
  let n := (roundHalfEven (qmul q (qpow10 prec))).toNat
  let ip := n / 10 ^ prec
  let fp := n % 10 ^ prec
  if prec = 0 then Nat.repr ip else Nat.repr ip ++ "." ++ padLeftZeros prec (Nat.repr fp)

/-- Python fixed-point float formatting `f"{x:.Nf}"`, idealised to exact
rationals. -/
def fmtFixed (prec : Nat) (q : ℚ) : String :=
  if q < 0 then "-" ++ fmtFixedNonneg prec (-q) else fmtFixedNonneg prec q

/-- The unit loop of `format_bytes`. -/
def formatBytesGo (units : List String) (q : ℚ) : String :=
  match units with
  | [] => fmtFixed 2 q ++ " PB"
  | u :: rest => if q < 1024 then fmtFixed 2 q ++ " " ++ u else formatBytesGo rest (qdiv q 1024)

/-- `format_bytes` from `analyze_results.py` (on numeric inputs; the
`except` fallback for non-numeric inputs is unreachable here). -/
def format_bytes (q : ℚ) : String := formatBytesGo ["B", "KB", "MB", "GB", "TB"] q

/-- The per-technology performance values produced by
`load_performance_data`.  `generate_report` reads every metric through
`.get(name, 0)`, so a missing technology dictionary is equivalent to
all-zero values; the fields below are those read values. -/
structure PerfData where
  vmStartup : ℚ
  dockerStartup : ℚ
  vmMemory : ℚ
  dockerMemory : ℚ
  vmDisk : ℚ
  dockerDisk : ℚ

/-- The stress-test values produced by `load_stress_data`.  The two
`Present` flags model the truthiness tests `stress_data['vm']` /
`stress_data['docker']` (non-empty dictionaries); the numeric fields are
the `.get(name, 0)` read values. -/
structure StressData where
  vmPresent : Bool
  dockerPresent : Bool
  vmQps : ℚ
  dockerQps : ℚ
  vmRt : ℚ
  dockerRt : ℚ

/-- The startup-speed finding of `generate_report` (lines 321-322):
emitted exactly when `docker_startup < vm_startup`, carrying the
improvement percentage formatted to one decimal place. -/
def startup_finding (vm_startup docker_startup : ℚ) : Option String :=
  if docker_startup < vm_startup then
    some ("- **启动速度**: Docker启动速度比VM快 "
      ++ fmtFixed 1 (calculate_improvement vm_startup docker_startup false)
      ++ "%，适合需要快速弹性伸缩的场景")
  else none

/-- The memory finding of `generate_report` (lines 324-325). -/
def memory_finding (vm_memory docker_memory : ℚ) : Option String :=
  if docker_memory < vm_memory then
    some ("- **资源效率**: Docker内存占用比VM少 "
      ++ fmtFixed 1 (calculate_improvement vm_memory docker_memory false)
      ++ "%，可以在相同硬件上运行更多实例")
  else none

/-- The disk finding of `generate_report` (lines 327-328). -/
def disk_finding (vm_disk docker_disk : ℚ) : Option String :=
  if docker_disk < vm_disk then
    some ("- **存储效率**: Docker磁盘占用比VM少 "
      ++ fmtFixed 1 (calculate_improvement vm_disk docker_disk false)
      ++ "%，节省存储成本")
  else none

/-- The findings block of `generate_report` (lines 319-334): three
data-derived findings guarded by strict raw-value comparisons, one
guarded by the QPS comparison, and two fixed findings appended
unconditionally. -/
def findingsList (p : PerfData) (s : StressData) : List String :=
  (startup_finding p.vmStartup p.dockerStartup).toList
  ++ (memory_finding p.vmMemory p.dockerMemory).toList
  ++ (disk_finding p.vmDisk p.dockerDisk).toList
  ++ (if s.vmQps < s.dockerQps then
        ["- **并发性能**: Docker在并发处理能力上表现更好，适合高并发Web应用"]
      else [])
  ++ ["- **隔离性**: VM提供更强的隔离性，适合多租户环境和安全要求高的场景",
      "- **灵活性**: VM支持不同操作系统，Docker更适合微服务和DevOps场景"]

/-- All report fragments of `generate_report` after the title and
timestamp lines (`analyze_results.py` lines 168-395), in `append`
order. -/
def restReport (p : PerfData) (s : StressData) : List String :=
  let startup_improvement := calculate_improvement p.vmStartup p.dockerStartup false
  let memory_improvement := calculate_improvement p.vmMemory p.dockerMemory false
  let disk_improvement := calculate_improvement p.vmDisk p.dockerDisk false
  ["---\n\n",
   "## 1. 执行摘要\n\n",
   "本报告对比了VM（KVM虚拟化）和Docker容器在部署相同应用（Nginx）时的性能表现，",
   "包括启动时间、资源占用、并发性能等关键指标。\n\n",
   "## 2. 测试环境\n\n",
   "### 2.1 应用配置\n",
   "- **测试应用**: Nginx Web服务器\n",
   "- **VM类型**: KVM虚拟机（Ubuntu 22.04）\n",
   "- **容器**: Docker容器（官方Nginx镜像）\n",
   "- **测试工具**: Apache Bench (ab)\n\n",
   "## 3. 性能指标对比\n\n",
   "### 3.1 启动时间对比\n\n",
   "| 指标 | VM (KVM) | Docker | 差异 |\n",
   "|------|----------|--------|------|\n",
   "| 启动时间 | " ++ fmtFixed 2 p.vmStartup ++ " 秒 | " ++ fmtFixed 2 p.dockerStartup ++ " 秒 | ",
   if 0 < startup_improvement then
     "Docker快 " ++ fmtFixed 1 startup_improvement ++ "% |\n"
   else
     "VM快 " ++ fmtFixed 1 (qabs startup_improvement) ++ "% |\n",
   "\n**分析**: "]
  ++ (if p.dockerStartup < p.vmStartup ∧ 0 < p.vmStartup then
        ["Docker启动速度明显快于VM，启动时间仅为VM的 "
           ++ fmtFixed 1 (qmul (qdiv p.dockerStartup p.vmStartup) 100) ++ "%。",
         "这是因为Docker容器共享宿主机内核，无需启动完整的操作系统。\n\n"]
      else
        ["VM启动时间较长，因为需要启动完整的操作系统内核和初始化进程。\n\n"])
  ++ ["### 3.2 内存占用对比\n\n",
      "| 指标 | VM (KVM) | Docker | 差异 |\n",
      "|------|----------|--------|------|\n",
      "| 内存使用 | " ++ fmtFixed 1 p.vmMemory ++ " MB | " ++ fmtFixed 1 p.dockerMemory ++ " MB | ",
      if 0 < memory_improvement then
        "Docker节省 " ++ fmtFixed 1 memory_improvement ++ "% |\n"
      else
        "VM多使用 " ++ fmtFixed 1 (qabs memory_improvement) ++ "% |\n",
      "\n**分析**: "]
  ++ (if p.dockerMemory < p.vmMemory ∧ 0 < p.vmMemory then
        ["Docker内存占用更少，仅为VM的 "
           ++ fmtFixed 1 (qmul (qdiv p.dockerMemory p.vmMemory) 100) ++ "%。",
         "容器共享宿主机内核，不需要为每个容器运行完整的操作系统，因此内存开销更小。\n\n"]
      else
        ["VM需要为每个实例运行完整的操作系统，内存开销较大。\n\n"])
  ++ ["### 3.3 磁盘占用对比\n\n",
      "| 指标 | VM (KVM) | Docker | 差异 |\n",
      "|------|----------|--------|------|\n",
      "| 磁盘占用 | " ++ format_bytes p.vmDisk ++ " | " ++ format_bytes p.dockerDisk ++ " | ",
      if 0 < disk_improvement then
        "Docker节省 " ++ fmtFixed 1 disk_improvement ++ "% |\n"
      else
        "VM多占用 " ++ fmtFixed 1 (qabs disk_improvement) ++ "% |\n",
      "\n**分析**: "]
  ++ (if p.dockerDisk < p.vmDisk ∧ 0 < p.vmDisk then
        ["Docker镜像通常比VM镜像小得多，磁盘占用仅为VM的 "
           ++ fmtFixed 1 (qmul (qdiv p.dockerDisk p.vmDisk) 100) ++ "%。",
         "Docker使用分层文件系统，可以共享基础镜像层，减少存储空间。\n\n"]
      else
        ["VM需要完整的操作系统镜像，磁盘占用较大。\n\n"])
  ++ (if s.vmPresent || s.dockerPresent then
        let qps_improvement := calculate_improvement s.vmQps s.dockerQps true
        ["### 3.4 并发性能对比（压测结果）\n\n",
         "| 指标 | VM (KVM) | Docker | 差异 |\n",
         "|------|----------|--------|------|\n",
         "| QPS (每秒请求数) | " ++ fmtFixed 0 s.vmQps ++ " | " ++ fmtFixed 0 s.dockerQps ++ " | ",
         if 0 < qps_improvement then
           "Docker高 " ++ fmtFixed 1 qps_improvement ++ "% |\n"
         else
           "VM高 " ++ fmtFixed 1 (qabs qps_improvement) ++ "% |\n",
         "| 平均响应时间 | " ++ fmtFixed 2 s.vmRt ++ " ms | " ++ fmtFixed 2 s.dockerRt ++ " ms | ",
         if s.dockerRt < s.vmRt ∧ 0 < s.vmRt then
           "Docker快 " ++ fmtFixed 1 (qmul (qdiv (qsub s.vmRt s.dockerRt) s.vmRt) 100) ++ "% |\n"
         else if s.vmRt < s.dockerRt ∧ 0 < s.dockerRt then
           "VM快 " ++ fmtFixed 1 (qmul (qdiv (qsub s.dockerRt s.vmRt) s.dockerRt) 100) ++ "% |\n"
         else
           "数据不足，无法比较 |\n",
         "\n**分析**: "]
        ++ (if s.vmQps < s.dockerQps then
              ["Docker在并发性能上通常表现更好，因为容器化应用的系统调用开销更小，",
               "没有虚拟化层的额外开销。\n\n"]
            else
              ["VM和Docker在并发性能上可能接近，具体取决于虚拟化技术和硬件配置。\n\n"])
      else [])
  ++ ["## 4. 隔离边界技术差异分析\n\n",
      "### 4.1 内核隔离\n\n",
      "- **VM (KVM)**: ",
      "每个VM运行独立的操作系统内核，完全的内核隔离。",
      "不同VM可以使用不同的操作系统和内核版本。",
      "内核级别的安全隔离，一个VM的内核崩溃不会影响其他VM。\n\n",
      "- **Docker**: ",
      "所有容器共享宿主机内核，没有内核隔离。",
      "所有容器必须使用相同的内核版本（宿主机内核）。",
      "内核级别的安全风险：如果内核有漏洞，可能影响所有容器。\n\n",
      "### 4.2 文件系统隔离\n\n",
      "- **VM (KVM)**: ",
      "每个VM有独立的虚拟磁盘，完全的文件系统隔离。",
      "可以使用不同的文件系统类型（ext4, xfs, btrfs等）。",
      "文件系统级别的安全隔离。\n\n",
      "- **Docker**: ",
      "使用联合文件系统（UnionFS），容器层叠加在镜像层之上。",
      "所有容器共享基础镜像层，节省存储空间。",
      "文件系统隔离通过命名空间实现，但共享底层存储。\n\n",
      "### 4.3 网络隔离\n\n",
      "- **VM (KVM)**: ",
      "每个VM有独立的虚拟网卡，可以通过虚拟交换机连接。",
      "支持完整的网络隔离和复杂的网络拓扑。",
      "可以使用不同的网络协议栈配置。\n\n",
      "- **Docker**: ",
      "使用Docker网络命名空间，每个容器有独立的网络栈。",
      "可以通过Docker网络（bridge, overlay等）实现容器间通信。",
      "网络隔离通过Linux网络命名空间实现。\n\n",
      "## 5. 关键发现\n\n"]
  ++ (findingsList p s).map (fun f => f ++ "\n")
  ++ ["\n",
      "## 6. 适用场景建议\n\n",
      "### 6.1 选择VM的场景\n\n",
      "- 需要运行不同操作系统的应用\n",
      "- 对安全隔离要求极高的多租户环境\n",
      "- 需要完整操作系统功能的传统应用\n",
      "- 需要独立内核配置的场景\n",
      "- 合规性要求需要完全隔离的环境\n\n",
      "### 6.2 选择Docker的场景\n\n",
      "- 微服务架构和云原生应用\n",
      "- 需要快速部署和弹性伸缩的场景\n",
      "- 资源受限的环境（需要更高的资源利用率）\n",
      "- DevOps和CI/CD流水线\n",
      "- 开发、测试、生产环境一致性要求\n\n",
      "## 7. 弹性伸缩场景分析\n\n",
      "在弹性伸缩场景中，两种技术的表现：\n\n",
      "### 7.1 启动速度对弹性伸缩的影响\n\n",
      "- **VM**: 启动时间约 " ++ fmtFixed 2 p.vmStartup ++ " 秒，在需要快速扩容时可能成为瓶颈\n",
      "- **Docker**: 启动时间约 " ++ fmtFixed 2 p.dockerStartup ++ " 秒，可以快速响应流量峰值\n",
      "- **优势**: Docker在弹性伸缩场景中响应速度更快，可以更快地应对流量变化\n\n",
      "### 7.2 资源密度对弹性伸缩的影响\n\n",
      "- **VM**: 每个实例占用约 " ++ fmtFixed 1 p.vmMemory ++ " MB内存，" ++ format_bytes p.vmDisk ++ " 磁盘\n",
      "- **Docker**: 每个实例占用约 " ++ fmtFixed 1 p.dockerMemory ++ " MB内存，" ++ format_bytes p.dockerDisk ++ " 磁盘\n"]
  ++ (if p.dockerMemory < p.vmMemory then
        let density_ratio := if 0 < p.dockerMemory then qdiv p.vmMemory p.dockerMemory else 1
        ["- **优势**: 在相同硬件上，Docker可以运行约 " ++ fmtFixed 1 density_ratio ++ " 倍数量的实例\n\n"]
      else [])
  ++ ["### 7.3 总结\n\n",
      "在弹性伸缩场景中，Docker具有明显优势：\n",
      "1. **快速启动**: 可以秒级启动新实例，快速响应流量变化\n",
      "2. **高密度**: 可以在相同硬件上运行更多实例，提高资源利用率\n",
      "3. **轻量级**: 资源占用小，降低扩容成本\n",
      "4. **自动化**: 更容易实现自动化的弹性伸缩策略\n\n",
      "VM在弹性伸缩场景中的优势：\n",
      "1. **强隔离**: 适合多租户环境，不同租户需要完全隔离\n",
      "2. **稳定性**: 单个实例故障不会影响其他实例\n",
      "3. **兼容性**: 支持传统应用，无需改造\n\n",
      "## 8. 结论\n\n",
      "通过本次实验对比，可以得出以下结论：\n\n",
      "1. **性能方面**: Docker在启动速度、资源占用方面明显优于VM，但在隔离性方面VM更强\n",
      "2. **适用场景**: Docker更适合云原生、微服务、弹性伸缩场景；VM更适合传统应用、强隔离需求场景\n",
      "3. **技术选择**: 应根据具体业务需求、安全要求、资源约束来选择合适的技术\n",
      "4. **混合使用**: 在实际生产环境中，VM和Docker可以混合使用，发挥各自优势\n\n",
      "---\n\n",
      "*本报告由自动化脚本生成，数据来源于实际测试结果*\n"]

/-- The full fragment list of `generate_report`: title, timestamp line
(the only fragment depending on the generation time `now`), then all the
data-dependent fragments. -/
def buildReport (p : PerfData) (s : StressData) (now : String) : List String :=
  "# 虚拟化 vs 容器性能对比分析报告\n"
    :: ("**生成时间**: " ++ now ++ "\n")
    :: restReport p s

/-- Python `''.join(...)` over the fragment list. -/
def joinFrags (frags : List String) : String :=
  frags.foldl (fun a b => a ++ b) ""

/-- The full document text written by `generate_report`. -/
def buildReportText (p : PerfData) (s : StressData) (now : String) : String :=
  joinFrags (buildReport p s now)

/-- All-zero performance data (every measurement absent or defaulted). -/
def zeroPerf : PerfData := ⟨0, 0, 0, 0, 0, 0⟩

/-- Stress data present on both sides but with all-zero values. -/
def zeroStress : StressData := ⟨true, true, 0, 0, 0, 0⟩

/-- Fuel irrelevance for `replaceAllGo`: any fuel at least the length of
the input gives the same result. -/
theorem replaceAllGo_fuel_irrel :
    ∀ (f1 f2 : Nat) (pat s : List Char), s.length ≤ f1 → s.length ≤ f2 →
      replaceAllGo f1 pat s = replaceAllGo f2 pat s := by
  intro f1
  induction f1 with
  | zero =>
    intro f2 pat s h1 h2
    have hs : s = [] := List.eq_nil_of_length_eq_zero (Nat.le_zero.mp h1)
    subst hs
    cases f2 <;> rfl
  | succ f ih =>
    intro f2 pat s h1 h2
    cases s with
    | nil => cases f2 <;> rfl
    | cons c xs =>
      cases f2 with
      | zero => simp at h2
      | succ g =>
        simp only [List.length_cons, Nat.add_le_add_iff_right] at h1 h2
        simp only [replaceAllGo]
        by_cases hcond : pat.isPrefixOf (c :: xs) ∧ pat ≠ []
        · rw [if_pos hcond, if_pos hcond]
          have hd : (xs.drop (pat.length - 1)).length ≤ xs.length := by
            rw [List.length_drop]; omega
          exact ih g pat _ (le_trans hd h1) (le_trans hd h2)
        · rw [if_neg hcond, if_neg hcond]
          rw [ih g pat xs h1 h2]

theorem replaceAll_cons_neg (pat : List Char) (c : Char) (xs : List Char)
    (h : ¬(pat.isPrefixOf (c :: xs) ∧ pat ≠ [])) :
    replaceAll pat (c :: xs) = c :: replaceAll pat xs := by
  show replaceAllGo (xs.length + 1) pat (c :: xs) = c :: replaceAllGo xs.length pat xs
  simp only [replaceAllGo, if_neg h]

theorem replaceAll_cons_pos (pat : List Char) (c : Char) (xs : List Char)
    (h : pat.isPrefixOf (c :: xs)) (hne : pat ≠ []) :
    replaceAll pat (c :: xs) = replaceAll pat (xs.drop (pat.length - 1)) := by
  show replaceAllGo (xs.length + 1) pat (c :: xs)
    = replaceAllGo (xs.drop (pat.length - 1)).length pat (xs.drop (pat.length - 1))
  simp only [replaceAllGo, if_pos (And.intro h hne)]
  exact replaceAllGo_fuel_irrel _ _ _ _ (by rw [List.length_drop]; omega) le_rfl

/-- A pattern whose head char does not occur in `s` passes over `s`
unchanged. -/
theorem replaceAll_append_pass (p : Char) (ps : List Char) (s t : List Char)
    (h : ∀ c ∈ s, c ≠ p) :
    replaceAll (p :: ps) (s ++ t) = s ++ replaceAll (p :: ps) t := by
  induction s with
  | nil => simp
  | cons c s ih =>
    have hc : c ≠ p := h c (List.mem_cons_self c s)
    have hcond : ¬((p :: ps).isPrefixOf (c :: (s ++ t)) ∧ (p :: ps) ≠ []) := by
      intro hh
      have h1 := hh.1
      simp only [List.isPrefixOf, Bool.and_eq_true, beq_iff_eq] at h1
      exact hc h1.1.symm
    rw [List.cons_append, replaceAll_cons_neg _ _ _ hcond,
      ih (fun d hd => h d (List.mem_cons_of_mem _ hd))]
    rfl

/-- A pattern whose head char does not occur in `s` leaves `s`
unchanged. -/
theorem replaceAll_self_pass (p : Char) (ps : List Char) (s : List Char)
    (h : ∀ c ∈ s, c ≠ p) : replaceAll (p :: ps) s = s := by
  have h2 := replaceAll_append_pass p ps s [] h
  rw [show replaceAll (p :: ps) ([] : List Char) = [] from rfl, List.append_nil] at h2
  exact h2

theorem dropWhile_all_false {f : Char → Bool} {s : List Char}
    (h : ∀ c ∈ s, f c = false) : s.dropWhile f = s := by
  cases s with
  | nil => rfl
  | cons c xs =>
    rw [List.dropWhile_cons, if_neg]
    simp [h c (List.mem_cons_self c xs)]

theorem trimChars_all_nonspace {s : List Char}
    (h : ∀ c ∈ s, isSpaceChar c = false) : trimChars s = s := by
  unfold trimChars
  rw [dropWhile_all_false h,
    dropWhile_all_false (fun c hc => h c (List.mem_reverse.mp hc)),
    List.reverse_reverse]

/-- Digit or decimal-point character (the characters a plain numeric
magnitude may contain). -/
def isDigitOrDot (c : Char) : Bool := c.isDigit || c == '.'

/-- The head characters of the recognised unit tokens. -/
def unitHeadChars : List Char := ['M', 'G', 'K', 'B', '%', 'm', 's']

theorem digitOrDot_ne_unitHead {c p : Char} (h : isDigitOrDot c = true)
    (hp : p ∈ unitHeadChars) : c ≠ p := by
  fin_cases hp <;> (rintro rfl; revert h; decide)

theorem digitOrDot_nonspace {c : Char} (h : isDigitOrDot c = true) :
    isSpaceChar c = false := by
  by_contra hs
  have hs' : isSpaceChar c = true := by
    revert hs; cases isSpaceChar c <;> simp
  simp only [isSpaceChar, Bool.or_eq_true, beq_iff_eq] at hs'
  rcases hs' with ((((rfl | rfl) | rfl) | rfl) | rfl) | rfl <;> exact absurd h (by decide)

theorem foldl_resolveStep_of_ne {a : ℚ} (cs : List ℚ) (h : a ≠ 0) :
    cs.foldl resolveStep a = a := by
  induction cs with
  | nil => rfl
  | cons c cs ih =>
    rw [List.foldl_cons]
    show cs.foldl resolveStep (resolveStep a c) = a
    rw [show resolveStep a c = a from if_neg h]
    exact ih

/-- C1: `calculate_improvement` returns exactly 0 whenever the baseline
value or the candidate value is 0 (the degenerate guard fires and the
division branch is never reached). -/
theorem claim1_degenerate_zero_guard (vm docker : ℚ) (p : Bool)
    (h : vm = 0 ∨ docker = 0) : calculate_improvement vm docker p = 0 := by
  unfold calculate_improvement
  rw [if_pos h]

theorem claim1_degenerate_zero_guard_witness :
    ((0 : ℚ) = 0 ∨ (5 : ℚ) = 0) ∧ calculate_improvement 0 5 true = 0 :=
  ⟨Or.inl rfl, claim1_degenerate_zero_guard 0 5 true (Or.inl rfl)⟩

/-- C2: on non-zero inputs `calculate_improvement` computes
`(candidate - baseline) / baseline * 100` when `higher_is_better` and
`(baseline - candidate) / baseline * 100` otherwise; in particular
`compare(100, 120, True) = 20` and `compare(100, 120, False) = -20`,
so a positive percentage always means the candidate (Docker) side is
better. -/
theorem claim2_improvement_formula (vm docker : ℚ) (hv : vm ≠ 0) (hd : docker ≠ 0) :
    (∀ p : Bool, calculate_improvement vm docker p =
      if p then (docker - vm) / vm * 100 else (vm - docker) / vm * 100)
    ∧ calculate_improvement 100 120 true = 20
    ∧ calculate_improvement 100 120 false = -20 := by
  refine ⟨fun p => ?_, by decide, by decide⟩
  unfold calculate_improvement
  rw [if_neg (by tauto)]
  cases p <;> simp [qmul_eq, qdiv_eq, qsub_eq]

theorem claim2_improvement_formula_witness :
    calculate_improvement 100 120 true = ((120 : ℚ) - 100) / 100 * 100 := by
  have h := (claim2_improvement_formula 100 120 (by norm_num) (by norm_num)).1 true
  simpa using h

/-- C3: the resolution cascade of `load_performance_data` returns the
first candidate (in priority order) whose normalized value is non-zero,
and 0 when every candidate is zero or absent; `[0, 0, 42]` resolves to
`42` and `[0, 0, 0]` to `0`. -/
theorem claim3_first_nonzero_resolution :
    (∀ m1 m2 m3 : ℚ, vm_used_memory m1 m2 m3 = resolveChain [m1, m2, m3])
    ∧ (∀ cs : List ℚ, resolveChain cs = specFirstNonZero cs)
    ∧ resolveChain [0, 0, 42] = 42
    ∧ resolveChain [0, 0, 0] = 0 := by
  refine ⟨fun m1 m2 m3 => ?_, fun cs => ?_, by decide, by decide⟩
  · simp only [vm_used_memory, resolveChain, List.foldl]
    rw [show resolveStep 0 m1 = m1 from if_pos rfl]
  · induction cs with
    | nil => rfl
    | cons c cs ih =>
      by_cases hc : c = 0
      · subst hc
        show List.foldl resolveStep (resolveStep 0 0) cs = _
        rw [show resolveStep (0 : ℚ) 0 = 0 from if_pos rfl]
        rw [show (List.foldl resolveStep 0 cs : ℚ) = resolveChain cs from rfl, ih]
        unfold specFirstNonZero
        rw [List.find?_cons_of_neg]
        simp
      · show List.foldl resolveStep (resolveStep 0 c) cs = _
        rw [show resolveStep 0 c = c from if_pos rfl]
        rw [foldl_resolveStep_of_ne cs hc]
        unfold specFirstNonZero
        rw [List.find?_cons_of_pos]
        · rfl
        · simpa using hc

/-- C4 (code bug): the disk-size conversion branch of
`load_performance_data` multiplies `parse_number(disk_size_str)` by
`1024 ^ 3` (resp. `1024 ^ 2`), but `parse_number` only strips the
tokens `MB`/`GB`/`KB`/`B`, so a bare `"10G"` or `"10M"` (the very
format named in the source comment on line 75) fails to parse, defaults
to 0, and the resolved disk size is 0 instead of `10 * 1024 ^ 3`
(resp. `10 * 1024 ^ 2`); only `"10GB"`-style strings and plain numeric
strings convert as documented. -/
theorem claim4_disk_unit_bug_eval :
    vm_disk_bytes "0" "10G" = 0
    ∧ vm_disk_bytes "0" "10M" = 0
    ∧ parse_number "10G" 0 = 0
    ∧ parse_number "10M" 0 = 0
    ∧ (10737418240 : ℚ) = 10 * 1024 ^ 3
    ∧ vm_disk_bytes "0" "10GB" = 10737418240
    ∧ vm_disk_bytes "0" "10MB" = 10485760
    ∧ vm_disk_bytes "0" "10737418240" = 10737418240 :=
  ⟨by decide, by decide, by decide, by decide, by norm_num,
   by decide, by decide, by decide⟩

/-- C6: on any input whose residue after stripping fails to parse, both
normalizers return exactly the supplied default (they are total
functions and never raise), and a missing or unreadable measurement
file yields the default content. -/
theorem claim6_default_on_failure (s : String) (d : ℚ)
    (h1 : parseDecimal (pnStrip (trimChars s.data)) = none)
    (h2 : parseDecimal (sfStrip (trimChars s.data)) = none) :
    parse_number s d = d ∧ safe_float_parse s d = d
    ∧ (∀ dflt : String, read_file_content none dflt = dflt) := by
  refine ⟨?_, ?_, fun _ => rfl⟩
  · unfold parse_number
    rw [h1]
    rfl
  · unfold safe_float_parse
    rw [h2]
    rfl

theorem claim6_default_on_failure_witness :
    parseDecimal (pnStrip (trimChars "".data)) = none
    ∧ parseDecimal (sfStrip (trimChars "".data)) = none
    ∧ parse_number "" 7 = 7 ∧ safe_float_parse "" 7 = 7 := by
  have h := claim6_default_on_failure "" 7 (by decide) (by decide)
  exact ⟨by decide, by decide, h.1, h.2.1⟩
theorem cons_neg_of_head_ne (p : Char) (ps : List Char) (c : Char) (xs : List Char)
    (h : p ≠ c) : replaceAll (p :: ps) (c :: xs) = c :: replaceAll (p :: ps) xs := by
  apply replaceAll_cons_neg
  intro hh
  have h1 := hh.1
  simp only [List.isPrefixOf, Bool.and_eq_true, beq_iff_eq] at h1
  exact h h1.1

theorem consume2 (a b : Char) (t : List Char) :
    replaceAll [a, b] (a :: b :: t) = replaceAll [a, b] t := by
  have h := replaceAll_cons_pos [a, b] a (b :: t)
    (by simp [List.isPrefixOf]) (by simp)
  simpa using h

theorem consume1 (a : Char) (t : List Char) :
    replaceAll [a] (a :: t) = replaceAll [a] t := by
  have h := replaceAll_cons_pos [a] a t (by simp [List.isPrefixOf]) (by simp)
  simpa using h

theorem skip2 (p : Char) (ps : List Char) (a b : Char) (t : List Char)
    (h1 : p ≠ a) (h2 : p ≠ b) (ht : replaceAll (p :: ps) t = t) :
    replaceAll (p :: ps) (a :: b :: t) = a :: b :: t := by
  rw [cons_neg_of_head_ne p ps a _ h1, cons_neg_of_head_ne p ps b _ h2, ht]

theorem skip1 (p : Char) (ps : List Char) (a : Char) (t : List Char)
    (h1 : p ≠ a) (ht : replaceAll (p :: ps) t = t) :
    replaceAll (p :: ps) (a :: t) = a :: t := by
  rw [cons_neg_of_head_ne p ps a _ h1, ht]

theorem pass_digits (p : Char) (ps : List Char) (hp : p ∈ unitHeadChars)
    (s t : List Char) (hs : ∀ c ∈ s, isDigitOrDot c = true) :
    replaceAll (p :: ps) (s ++ t) = s ++ replaceAll (p :: ps) t :=
  replaceAll_append_pass p ps s t fun c hc => digitOrDot_ne_unitHead (hs c hc) hp

theorem self_digits (p : Char) (ps : List Char) (hp : p ∈ unitHeadChars)
    (s : List Char) (hs : ∀ c ∈ s, isDigitOrDot c = true) :
    replaceAll (p :: ps) s = s :=
  replaceAll_self_pass p ps s fun c hc => digitOrDot_ne_unitHead (hs c hc) hp

/-- On a string of digit-or-dot characters with one unit token of
`parse_number` inserted anywhere, the chained replaces delete exactly
that token. -/
theorem pnStrip_unit_mid (u : List Char) (hu : u ∈ pnUnits) (s t : List Char)
    (hs : ∀ c ∈ s, isDigitOrDot c = true) (ht : ∀ c ∈ t, isDigitOrDot c = true) :
    pnStrip (s ++ u ++ t) = s ++ t := by
  have hst : ∀ c ∈ s ++ t, isDigitOrDot c = true := by
    intro c hc
    rcases List.mem_append.mp hc with h | h
    · exact hs c h
    · exact ht c h
  simp only [pnUnits, List.mem_cons, List.not_mem_nil, or_false] at hu
  rcases hu with rfl | rfl | rfl | rfl
  · rw [List.append_assoc, show (['M','B'] ++ t : List Char) = 'M' :: 'B' :: t from rfl]
    unfold pnStrip
    rw [pass_digits 'M' ['B'] (by decide) s _ hs, consume2 'M' 'B' t,
      self_digits 'M' ['B'] (by decide) t ht,
      self_digits 'G' ['B'] (by decide) (s ++ t) hst,
      self_digits 'K' ['B'] (by decide) (s ++ t) hst,
      self_digits 'B' [] (by decide) (s ++ t) hst]
  · rw [List.append_assoc, show (['G','B'] ++ t : List Char) = 'G' :: 'B' :: t from rfl]
    unfold pnStrip
    rw [pass_digits 'M' ['B'] (by decide) s _ hs,
      skip2 'M' ['B'] 'G' 'B' t (by decide) (by decide)
        (self_digits 'M' ['B'] (by decide) t ht),
      pass_digits 'G' ['B'] (by decide) s _ hs, consume2 'G' 'B' t,
      self_digits 'G' ['B'] (by decide) t ht,
      self_digits 'K' ['B'] (by decide) (s ++ t) hst,
      self_digits 'B' [] (by decide) (s ++ t) hst]
  · rw [List.append_assoc, show (['K','B'] ++ t : List Char) = 'K' :: 'B' :: t from rfl]
    unfold pnStrip
    rw [pass_digits 'M' ['B'] (by decide) s _ hs,
      skip2 'M' ['B'] 'K' 'B' t (by decide) (by decide)
        (self_digits 'M' ['B'] (by decide) t ht),
      pass_digits 'G' ['B'] (by decide) s _ hs,
      skip2 'G' ['B'] 'K' 'B' t (by decide) (by decide)
        (self_digits 'G' ['B'] (by decide) t ht),
      pass_digits 'K' ['B'] (by decide) s _ hs, consume2 'K' 'B' t,
      self_digits 'K' ['B'] (by decide) t ht,
      self_digits 'B' [] (by decide) (s ++ t) hst]
  · rw [List.append_assoc, show (['B'] ++ t : List Char) = 'B' :: t from rfl]
    unfold pnStrip
    rw [pass_digits 'M' ['B'] (by decide) s _ hs,
      skip1 'M' ['B'] 'B' t (by decide) (self_digits 'M' ['B'] (by decide) t ht),
      pass_digits 'G' ['B'] (by decide) s _ hs,
      skip1 'G' ['B'] 'B' t (by decide) (self_digits 'G' ['B'] (by decide) t ht),
      pass_digits 'K' ['B'] (by decide) s _ hs,
      skip1 'K' ['B'] 'B' t (by decide) (self_digits 'K' ['B'] (by decide) t ht),
      pass_digits 'B' [] (by decide) s _ hs, consume1 'B' t,
      self_digits 'B' [] (by decide) t ht]

/-- On a string of digit-or-dot characters with one `safe_float_parse`
unit token appended, the stripping loop deletes exactly that token. -/
theorem sfStrip_nested (x : List Char) :
    sfStrip x = replaceAll ['s'] (replaceAll ['m','s'] (replaceAll ['%'] (replaceAll ['B']
      (replaceAll ['K','B'] (replaceAll ['G','B'] (replaceAll ['M','B'] x)))))) := by
  simp only [sfStrip, sfUnits, List.foldl_cons, List.foldl_nil]

theorem sfStrip_unit_suffix (u : List Char) (hu : u ∈ sfUnits) (s : List Char)
    (hs : ∀ c ∈ s, isDigitOrDot c = true) :
    sfStrip (s ++ u) = s := by
  have hnil : ∀ pat : List Char, replaceAll pat [] = [] := fun _ => rfl
  simp only [sfUnits, List.mem_cons, List.not_mem_nil, or_false] at hu
  rw [sfStrip_nested]
  rcases hu with rfl | rfl | rfl | rfl | rfl | rfl | rfl
  · rw [pass_digits 'M' ['B'] (by decide) s _ hs, consume2 'M' 'B' [], hnil,
      List.append_nil,
      self_digits 'G' ['B'] (by decide) s hs,
      self_digits 'K' ['B'] (by decide) s hs,
      self_digits 'B' [] (by decide) s hs,
      self_digits '%' [] (by decide) s hs,
      self_digits 'm' ['s'] (by decide) s hs,
      self_digits 's' [] (by decide) s hs]
  · rw [pass_digits 'M' ['B'] (by decide) s _ hs,
      skip2 'M' ['B'] 'G' 'B' [] (by decide) (by decide) (hnil _),
      pass_digits 'G' ['B'] (by decide) s _ hs, consume2 'G' 'B' [], hnil,
      List.append_nil,
      self_digits 'K' ['B'] (by decide) s hs,
      self_digits 'B' [] (by decide) s hs,
      self_digits '%' [] (by decide) s hs,
      self_digits 'm' ['s'] (by decide) s hs,
      self_digits 's' [] (by decide) s hs]
  · rw [pass_digits 'M' ['B'] (by decide) s _ hs,
      skip2 'M' ['B'] 'K' 'B' [] (by decide) (by decide) (hnil _),
      pass_digits 'G' ['B'] (by decide) s _ hs,
      skip2 'G' ['B'] 'K' 'B' [] (by decide) (by decide) (hnil _),
      pass_digits 'K' ['B'] (by decide) s _ hs, consume2 'K' 'B' [], hnil,
      List.append_nil,
      self_digits 'B' [] (by decide) s hs,
      self_digits '%' [] (by decide) s hs,
      self_digits 'm' ['s'] (by decide) s hs,
      self_digits 's' [] (by decide) s hs]
  · rw [pass_digits 'M' ['B'] (by decide) s _ hs,
      skip1 'M' ['B'] 'B' [] (by decide) (hnil _),
      pass_digits 'G' ['B'] (by decide) s _ hs,
      skip1 'G' ['B'] 'B' [] (by decide) (hnil _),
      pass_digits 'K' ['B'] (by decide) s _ hs,
      skip1 'K' ['B'] 'B' [] (by decide) (hnil _),
      pass_digits 'B' [] (by decide) s _ hs, consume1 'B' [], hnil,
      List.append_nil,
      self_digits '%' [] (by decide) s hs,
      self_digits 'm' ['s'] (by decide) s hs,
      self_digits 's' [] (by decide) s hs]
  · rw [pass_digits 'M' ['B'] (by decide) s _ hs,
      skip1 'M' ['B'] '%' [] (by decide) (hnil _),
      pass_digits 'G' ['B'] (by decide) s _ hs,
      skip1 'G' ['B'] '%' [] (by decide) (hnil _),
      pass_digits 'K' ['B'] (by decide) s _ hs,
      skip1 'K' ['B'] '%' [] (by decide) (hnil _),
      pass_digits 'B' [] (by decide) s _ hs,
      skip1 'B' [] '%' [] (by decide) (hnil _),
      pass_digits '%' [] (by decide) s _ hs, consume1 '%' [], hnil,
      List.append_nil,
      self_digits 'm' ['s'] (by decide) s hs,
      self_digits 's' [] (by decide) s hs]
  · rw [pass_digits 'M' ['B'] (by decide) s _ hs,
      skip2 'M' ['B'] 'm' 's' [] (by decide) (by decide) (hnil _),
      pass_digits 'G' ['B'] (by decide) s _ hs,
      skip2 'G' ['B'] 'm' 's' [] (by decide) (by decide) (hnil _),
      pass_digits 'K' ['B'] (by decide) s _ hs,
      skip2 'K' ['B'] 'm' 's' [] (by decide) (by decide) (hnil _),
      pass_digits 'B' [] (by decide) s _ hs,
      skip2 'B' [] 'm' 's' [] (by decide) (by decide) (hnil _),
      pass_digits '%' [] (by decide) s _ hs,
      skip2 '%' [] 'm' 's' [] (by decide) (by decide) (hnil _),
      pass_digits 'm' ['s'] (by decide) s _ hs, consume2 'm' 's' [], hnil,
      List.append_nil,
      self_digits 's' [] (by decide) s hs]
  · rw [pass_digits 'M' ['B'] (by decide) s _ hs,
      skip1 'M' ['B'] 's' [] (by decide) (hnil _),
      pass_digits 'G' ['B'] (by decide) s _ hs,
      skip1 'G' ['B'] 's' [] (by decide) (hnil _),
      pass_digits 'K' ['B'] (by decide) s _ hs,
      skip1 'K' ['B'] 's' [] (by decide) (hnil _),
      pass_digits 'B' [] (by decide) s _ hs,
      skip1 'B' [] 's' [] (by decide) (hnil _),
      pass_digits '%' [] (by decide) s _ hs,
      skip1 '%' [] 's' [] (by decide) (hnil _),
      pass_digits 'm' ['s'] (by decide) s _ hs,
      skip1 'm' ['s'] 's' [] (by decide) (hnil _),
      pass_digits 's' [] (by decide) s _ hs, consume1 's' [], hnil,
      List.append_nil]

theorem pnUnit_nonspace (u : List Char) (hu : u ∈ pnUnits) :
    ∀ c ∈ u, isSpaceChar c = false := by
  simp only [pnUnits, List.mem_cons, List.not_mem_nil, or_false] at hu
  rcases hu with rfl | rfl | rfl | rfl <;> decide

theorem sfUnit_nonspace (u : List Char) (hu : u ∈ sfUnits) :
    ∀ c ∈ u, isSpaceChar c = false := by
  simp only [sfUnits, List.mem_cons, List.not_mem_nil, or_false] at hu
  rcases hu with rfl | rfl | rfl | rfl | rfl | rfl | rfl <;> decide

/-- C5: for every parseable digit string `s` and every recognised unit
token of `safe_float_parse` (`MB`, `GB`, `KB`, `B`, `%`, `ms`, `s`),
the normalizer strips the appended unit and returns the numeric
magnitude of `s` unchanged; in particular `"512MB"` normalizes to
`512`. -/
theorem claim5_unit_suffix_stripped (u : List Char) (hu : u ∈ sfUnits)
    (s : List Char) (v d : ℚ)
    (hs : ∀ c ∈ s, isDigitOrDot c = true)
    (hv : parseDecimal s = some v) :
    safe_float_parse (String.mk (s ++ u)) d = v
    ∧ safe_float_parse "512MB" 0 = 512 := by
  refine ⟨?_, by decide⟩
  have hns : ∀ c ∈ s ++ u, isSpaceChar c = false := by
    intro c hc
    rcases List.mem_append.mp hc with h | h
    · exact digitOrDot_nonspace (hs c h)
    · exact sfUnit_nonspace u hu c h
  unfold safe_float_parse
  rw [show (String.mk (s ++ u)).data = s ++ u from rfl]
  rw [trimChars_all_nonspace hns]
  rw [sfStrip_unit_suffix u hu s hs]
  rw [hv]
  rfl

theorem claim5_unit_suffix_stripped_witness :
    (['M','B'] ∈ sfUnits)
    ∧ parseDecimal ['5','1','2'] = some 512
    ∧ safe_float_parse (String.mk (['5','1','2'] ++ ['M','B'])) 0 = 512 := by
  refine ⟨by decide, by decide, ?_⟩
  exact (claim5_unit_suffix_stripped ['M','B'] (by decide) ['5','1','2'] 512 0
    (by decide) (by decide)).1

/-- C10: `parse_number` deletes the tokens `MB`, `GB`, `KB`, `B` at
every position of the input, not only as a trailing suffix: for a
digit string with one such token inserted anywhere, it returns the
number formed by the remaining characters; in particular `"B12"` and
`"1B2"` both parse to `12` rather than the default. -/
theorem claim10_units_stripped_anywhere (u : List Char) (hu : u ∈ pnUnits)
    (s t : List Char) (v d : ℚ)
    (hs : ∀ c ∈ s, isDigitOrDot c = true) (ht : ∀ c ∈ t, isDigitOrDot c = true)
    (hv : parseDecimal (s ++ t) = some v) :
    parse_number (String.mk (s ++ u ++ t)) d = v := by
  have hns : ∀ c ∈ s ++ u ++ t, isSpaceChar c = false := by
    intro c hc
    rcases List.mem_append.mp hc with h | h
    · rcases List.mem_append.mp h with h2 | h2
      · exact digitOrDot_nonspace (hs c h2)
      · exact pnUnit_nonspace u hu c h2
    · exact digitOrDot_nonspace (ht c h)
  unfold parse_number
  rw [show (String.mk (s ++ u ++ t)).data = s ++ u ++ t from rfl]
  rw [trimChars_all_nonspace hns]
  rw [pnStrip_unit_mid u hu s t hs ht]
  rw [hv]
  rfl

theorem claim10_units_stripped_anywhere_witness :
    (['B'] ∈ pnUnits)
    ∧ parseDecimal (['1'] ++ ['2']) = some 12
    ∧ parse_number (String.mk (['1'] ++ ['B'] ++ ['2'])) 0 = 12
    ∧ parse_number "1B2" 0 = 12 ∧ parse_number "B12" 0 = 12 := by
  refine ⟨by decide, by decide, ?_, by decide, by decide⟩
  exact claim10_units_stripped_anywhere ['B'] (by decide) ['1'] ['2'] 12 0
    (by decide) (by decide) (by decide)
/-- C7 counterexample: a degenerate comparison (candidate startup 0,
baseline startup 60 — a zero on one side) still emits a finding: the
guard `docker_startup < vm_startup` holds, and the degenerate guard of
`calculate_improvement` only forces the reported percentage to 0.0, so
the claim that degenerate comparisons produce no finding is false. -/
theorem claim7_zero_side_emits_finding :
    startup_finding 60 0
      = some "- **启动速度**: Docker启动速度比VM快 0.0%，适合需要快速弹性伸缩的场景" := by
  decide

/-- C7 (amended): each data-derived finding is emitted exactly when the
candidate raw value is strictly less than the baseline raw value (ties
produce no finding), but a zero on the winning side does not suppress
the finding — it only zeroes the reported percentage; baseline startup
60 versus candidate startup 5 yields the finding that the candidate is
faster by `(60 - 5) / 60 * 100` percent (formatted `91.7`). -/
theorem claim7_strict_direction_findings (vm docker : ℚ) :
    ((startup_finding vm docker).isSome = true ↔ docker < vm)
    ∧ startup_finding vm vm = none
    ∧ ((memory_finding vm docker).isSome = true ↔ docker < vm)
    ∧ ((disk_finding vm docker).isSome = true ↔ docker < vm)
    ∧ startup_finding 60 5
        = some "- **启动速度**: Docker启动速度比VM快 91.7%，适合需要快速弹性伸缩的场景"
    ∧ calculate_improvement 60 5 false = (60 - 5) / 60 * 100 := by
  refine ⟨?_, ?_, ?_, ?_, by decide, ?_⟩
  · unfold startup_finding
    by_cases h : docker < vm
    · rw [if_pos h]; simp [h]
    · rw [if_neg h]; simp [h]
  · unfold startup_finding
    rw [if_neg (lt_irrefl vm)]
  · unfold memory_finding
    by_cases h : docker < vm
    · rw [if_pos h]; simp [h]
    · rw [if_neg h]; simp [h]
  · unfold disk_finding
    by_cases h : docker < vm
    · rw [if_pos h]; simp [h]
    · rw [if_neg h]; simp [h]
  · rw [show calculate_improvement 60 5 false = Rat.divInt 275 3 from by decide,
      Rat.divInt_eq_div]
    norm_num

/-- C8 counterexample: with all-zero inputs on both sides, the produced
document contains the startup difference cell `VM快 0.0% |` — a
sentence claiming a direction (VM faster) — instead of a neutral
"insufficient data" phrasing, so the claim that every data-dependent
sentence takes its neutral form is false. -/
theorem claim8_directional_sentence_at_zero :
    "VM快 0.0% |\n" ∈ buildReport zeroPerf zeroStress "2026-01-01 00:00:00" := by
  decide

/-- C8 (amended): with all-zero inputs the synthesizer still completes
and the document contains every fixed section (1-8 with all their
subsections, including 3.4 when stress data exists); the average
response-time cell does fall back to the neutral `数据不足，无法比较`
phrase, but the startup / memory / disk / QPS difference cells render
the directional sentences `VM快 0.0%`, `VM多使用 0.0%`, `VM多占用
0.0%`, `VM高 0.0%`. -/
theorem claim8_all_sections_with_mixed_fallback (now : String) :
    ("# 虚拟化 vs 容器性能对比分析报告\n" ∈ buildReport zeroPerf zeroStress now)
    ∧ ("## 1. 执行摘要\n\n" ∈ buildReport zeroPerf zeroStress now)
    ∧ ("## 2. 测试环境\n\n" ∈ buildReport zeroPerf zeroStress now)
    ∧ ("### 2.1 应用配置\n" ∈ buildReport zeroPerf zeroStress now)
    ∧ ("## 3. 性能指标对比\n\n" ∈ buildReport zeroPerf zeroStress now)
    ∧ ("### 3.1 启动时间对比\n\n" ∈ buildReport zeroPerf zeroStress now)
    ∧ ("### 3.2 内存占用对比\n\n" ∈ buildReport zeroPerf zeroStress now)
    ∧ ("### 3.3 磁盘占用对比\n\n" ∈ buildReport zeroPerf zeroStress now)
    ∧ ("### 3.4 并发性能对比（压测结果）\n\n" ∈ buildReport zeroPerf zeroStress now)
    ∧ ("## 4. 隔离边界技术差异分析\n\n" ∈ buildReport zeroPerf zeroStress now)
    ∧ ("### 4.1 内核隔离\n\n" ∈ buildReport zeroPerf zeroStress now)
    ∧ ("### 4.2 文件系统隔离\n\n" ∈ buildReport zeroPerf zeroStress now)
    ∧ ("### 4.3 网络隔离\n\n" ∈ buildReport zeroPerf zeroStress now)
    ∧ ("## 5. 关键发现\n\n" ∈ buildReport zeroPerf zeroStress now)
    ∧ ("## 6. 适用场景建议\n\n" ∈ buildReport zeroPerf zeroStress now)
    ∧ ("### 6.1 选择VM的场景\n\n" ∈ buildReport zeroPerf zeroStress now)
    ∧ ("### 6.2 选择Docker的场景\n\n" ∈ buildReport zeroPerf zeroStress now)
    ∧ ("## 7. 弹性伸缩场景分析\n\n" ∈ buildReport zeroPerf zeroStress now)
    ∧ ("### 7.1 启动速度对弹性伸缩的影响\n\n" ∈ buildReport zeroPerf zeroStress now)
    ∧ ("### 7.2 资源密度对弹性伸缩的影响\n\n" ∈ buildReport zeroPerf zeroStress now)
    ∧ ("### 7.3 总结\n\n" ∈ buildReport zeroPerf zeroStress now)
    ∧ ("## 8. 结论\n\n" ∈ buildReport zeroPerf zeroStress now)
    ∧ ("数据不足，无法比较 |\n" ∈ buildReport zeroPerf zeroStress now)
    ∧ ("VM快 0.0% |\n" ∈ buildReport zeroPerf zeroStress now)
    ∧ ("VM多使用 0.0% |\n" ∈ buildReport zeroPerf zeroStress now)
    ∧ ("VM多占用 0.0% |\n" ∈ buildReport zeroPerf zeroStress now)
    ∧ ("VM高 0.0% |\n" ∈ buildReport zeroPerf zeroStress now) := by
  have h : ∀ x : String, x ∈ restReport zeroPerf zeroStress →
      x ∈ buildReport zeroPerf zeroStress now :=
    fun x hx => List.mem_cons_of_mem _ (List.mem_cons_of_mem _ hx)
  exact ⟨List.mem_cons_self _ _,
    h _ (by decide), h _ (by decide), h _ (by decide), h _ (by decide),
    h _ (by decide), h _ (by decide), h _ (by decide), h _ (by decide),
    h _ (by decide), h _ (by decide), h _ (by decide), h _ (by decide),
    h _ (by decide), h _ (by decide), h _ (by decide), h _ (by decide),
    h _ (by decide), h _ (by decide), h _ (by decide), h _ (by decide),
    h _ (by decide), h _ (by decide), h _ (by decide), h _ (by decide),
    h _ (by decide), h _ (by decide)⟩

theorem strAppend_empty (a : String) : a ++ "" = a := by
  apply String.ext
  rw [String.data_append, show ("" : String).data = [] from rfl]
  exact List.append_nil _

theorem strEmpty_append (a : String) : "" ++ a = a := by
  apply String.ext
  rw [String.data_append, show ("" : String).data = [] from rfl]
  rfl

theorem strAppend_assoc (a b c : String) : a ++ b ++ c = a ++ (b ++ c) := by
  apply String.ext
  simp only [String.data_append]
  exact List.append_assoc _ _ _

theorem joinFrags_from (l : List String) :
    ∀ init : String, l.foldl (fun a b => a ++ b) init = init ++ joinFrags l := by
  induction l with
  | nil =>
    intro init
    show init = init ++ joinFrags []
    rw [show joinFrags [] = "" from rfl, strAppend_empty]
  | cons a l ih =>
    intro init
    rw [List.foldl_cons, ih (init ++ a),
      show joinFrags (a :: l) = (a :: l).foldl (fun x y => x ++ y) "" from rfl,
      List.foldl_cons, ih ("" ++ a), strEmpty_append, strAppend_assoc]

theorem joinFrags_cons (a : String) (l : List String) :
    joinFrags (a :: l) = a ++ joinFrags l := by
  show (a :: l).foldl (fun x y => x ++ y) "" = _
  rw [List.foldl_cons, joinFrags_from l ("" ++ a), strEmpty_append]

/-- C9: the report generator is a pure function of the resolved
performance data, the stress data and the timestamp: the document text
decomposes as a fixed title, the timestamp line, and a remainder
depending only on the data, so two runs over identical resolved data
produce byte-identical documents apart from the embedded timestamp
fragment (fragment index 1). -/
theorem claim9_deterministic_modulo_timestamp (p : PerfData) (s : StressData)
    (t1 t2 : String) :
    buildReportText p s t1
      = "# 虚拟化 vs 容器性能对比分析报告\n"
        ++ (("**生成时间**: " ++ t1 ++ "\n") ++ joinFrags (restReport p s))
    ∧ (buildReport p s t1).eraseIdx 1 = (buildReport p s t2).eraseIdx 1
    ∧ (buildReport p s t1).get? 1 = some ("**生成时间**: " ++ t1 ++ "\n") := by
  refine ⟨?_, rfl, rfl⟩
  unfold buildReportText buildReport
  rw [joinFrags_cons, joinFrags_cons]
